/-
Verification development for the ecommerce order-checkout and fulfillment
subsystem.  The definitions below are a shallow embedding of the Python
sources under ecommerce/extensions: status constants, the basket store,
order placement, the shipping-event handler, fulfillment retry, payment
recording, and the checkout / notification views.  Monetary amounts are
modelled as natural numbers, statuses as the string constants used by the
source, and database tables as Lean lists.
-/
import Mathlib

namespace ECommerce

/-! ### Status constants, from ecommerce/extensions/order/constants.py -/

namespace OrderStatus

def OPEN : String := "Open"

def FULFILLMENT_ERROR : String := "Fulfillment Error"

def COMPLETE : String := "Complete"

def REFUNDED : String := "Refunded"

end OrderStatus

namespace LineStatus

def OPEN : String := "Open"

def FULFILLMENT_CONFIGURATION_ERROR : String := "Fulfillment Configuration Error"

def FULFILLMENT_NETWORK_ERROR : String := "Fulfillment Network Error"

def FULFILLMENT_TIMEOUT_ERROR : String := "Fulfillment Timeout Error"

def FULFILLMENT_SERVER_ERROR : String := "Fulfillment Server Error"

def COMPLETE : String := "Complete"

def REFUNDED : String := "Refunded"

def REVOKE_CONFIGURATION_ERROR : String := "Revoke Configuration Error"

def REVOKE_NETWORK_ERROR : String := "Revoke Network Error"

def REVOKE_TIMEOUT_ERROR : String := "Revoke Timeout Error"

def REVOKE_SERVER_ERROR : String := "Revoke Server Error"

end LineStatus

namespace FulfillmentORDER

/-- Modelled from the spec: the module `ecommerce.extensions.fulfillment.status`
imported by checkout/mixins.py and payment/views.py is not under src (only its
importers are).  The spec and the order-model tests treat `Paid` as an order
status distinct from `Open`, `Complete`, `Refunded` and `Fulfillment Error`. -/
def PAID : String := "Paid"

end FulfillmentORDER

/-- Modelled from the spec: the `APIConstants` module referenced as `AC` by
api/views.py is not under src.  `AC.FREE` is the free-order total threshold;
the spec and the deprecated view (`FREE = 0`) fix it at zero. -/
def AC_FREE : Nat := 0

/-! ### Basket store, from ecommerce/extensions/api/data.py and the basket
collaborator interface described by the spec (status set {Open, Merged,
Frozen, Submitted}; editable = Open; merge moves lines without summing
duplicate-line quantities and marks the stale basket Merged). -/

inductive BasketStatus
  | Open
  | Merged
  | Frozen
  | Submitted
deriving Repr, DecidableEq

structure BLine where
  product : Nat
  quantity : Nat
  unit_price_excl_tax : Nat
deriving Repr, DecidableEq

structure Basket where
  id : Nat
  owner : Nat
  status : BasketStatus
  lines : List BLine
deriving Repr, DecidableEq

def editable_statuses : List BasketStatus := [BasketStatus.Open]

def is_editable_for (user : Nat) (b : Basket) : Bool :=
  b.owner == user && editable_statuses.contains b.status

/-- One step of the basket merge: fold a stale line into the survivor's lines.
With `add_quantities = false` (the only mode used by `get_basket`), a line
whose product already exists in the survivor is dropped — quantities are not
summed; a new product is appended. -/
def merge_line (lines : List BLine) (l : BLine) (add_quantities : Bool) : List BLine :=
  if lines.any (fun x => x.product == l.product) then
    if add_quantities then
      lines.map (fun x =>
        if x.product == l.product then { x with quantity := x.quantity + l.quantity } else x)
    else lines
  else lines ++ [l]

def merge_lines (survivor stale : List BLine) (add_quantities : Bool) : List BLine :=
  stale.foldl (fun acc l => merge_line acc l add_quantities) survivor

/-- The survivor basket after every stale basket's lines were merged into it
with `add_quantities = False`. -/
def merged_survivor (survivor : Basket) (stale_baskets : List Basket) : Basket :=
  { survivor with
    lines := stale_baskets.foldl (fun acc s => merge_lines acc s.lines false) survivor.lines }

/-- The effect of the merge pass on one stored basket: the survivor is
replaced by its merged version, each stale basket becomes Merged with its
lines moved out, and every other basket is untouched. -/
def apply_merge (survivor : Basket) (stale_baskets : List Basket) (b : Basket) : Basket :=
  if b.id == survivor.id then merged_survivor survivor stale_baskets
  else if b.id ∈ stale_baskets.map Basket.id then
    { b with status := BasketStatus.Merged, lines := [] }
  else b

/-- `get_basket` from api/data.py: filter the owner's editable (Open) baskets;
none → create a fresh Open basket; otherwise keep the first as survivor and
merge every other into it with `add_quantities = False`, marking the stale
baskets Merged.  The store is the basket table, kept in creation order;
`fresh_id` is the primary key a newly created basket would receive. -/
def get_basket (store : List Basket) (user : Nat) (fresh_id : Nat) :
    Basket × List Basket :=
  match store.filter (is_editable_for user) with
  | [] =>
      let b : Basket := { id := fresh_id, owner := user, status := BasketStatus.Open, lines := [] }
      (b, store ++ [b])
  | survivor :: stale_baskets =>
      (merged_survivor survivor stale_baskets,
       store.map (apply_merge survivor stale_baskets))

def freeze (b : Basket) : Basket := { b with status := BasketStatus.Frozen }

def submit (b : Basket) : Basket := { b with status := BasketStatus.Submitted }

/-- `basket.add_product`: append a line for a new product, or increment the
quantity of the existing line for that product. -/
def add_product (b : Basket) (product unit_price : Nat) : Basket :=
  if b.lines.any (fun l => l.product == product) then
    { b with lines := b.lines.map (fun l =>
        if l.product == product then { l with quantity := l.quantity + 1 } else l) }
  else
    { b with lines := b.lines ++ [{ product := product, quantity := 1,
                                    unit_price_excl_tax := unit_price }] }

/-- Basket total excluding tax: sum of line prices, each line price being
quantity times unit price (shipping is the Free method, charging nothing). -/
def basket_total_excl_tax (b : Basket) : Nat :=
  (b.lines.map (fun l => l.quantity * l.unit_price_excl_tax)).sum

/-- Oscar's order-number generator: a fixed prefix plus an offset of the
basket's numeric id (api/views.py docstrings show basket 8 → "OSCR-100008"). -/
def order_number (b : Basket) : String := "OSCR-" ++ toString (100000 + b.id)

/-! ### Orders and order placement -/

structure OrderLine where
  id : Nat
  product : Nat
  quantity : Nat
  status : String
deriving Repr, DecidableEq

structure Order where
  number : String
  owner : Nat
  status : String
  total_excl_tax : Nat
  lines : List OrderLine
deriving Repr, DecidableEq

/-- `OrderCreator().place_order`: persist one Order with one line per basket
line (quantity copied, line status starting the line pipeline at Open), the
order number generated from the basket, and the caller-supplied status. -/
def place_order (b : Basket) (total : Nat) (status : String) : Order :=
  { number := order_number b
    owner := b.owner
    status := status
    total_excl_tax := total
    lines := b.lines.enum.map (fun p =>
      { id := p.1, product := p.2.product, quantity := p.2.quantity,
        status := LineStatus.OPEN }) }

/-- `OrderListCreateAPIView._prepare_order` (the deprecated order-creation
view): add the product, freeze the basket, place the order with
`status=ORDER.OPEN`, then submit the basket. -/
def prepare_order (b : Basket) (product unit_price : Nat) : Order × Basket :=
  let b1 := add_product b product unit_price
  let b2 := freeze b1
  let order := place_order b2 (basket_total_excl_tax b2) OrderStatus.OPEN
  (order, submit b2)

/-- `EdxOrderPlacementMixin.get_initial_order_status` from
checkout/mixins.py: returns `ORDER.PAID` (from the fulfillment status
module), for every basket. -/
def get_initial_order_status (_basket : Basket) : String := FulfillmentORDER.PAID

/-! ### Event handler, ecommerce/extensions/order/processing.py -/

structure ShippingEvent where
  event_type : String
  lines : List OrderLine
deriving Repr, DecidableEq

/-- Modelled from the spec: `EventHandler.create_shipping_event`
(`ecommerce.extensions.order.processing`) is not under src — only its tests
are.  Per the spec it filters to lines whose parallel fulfilled quantity is
positive and whose status is Complete at call time, returns without creating
anything when that filtered set is empty, and otherwise creates one shipping
event referencing exactly the filtered lines. -/
def create_shipping_event (event_type : String) (lines : List OrderLine)
    (fulfilled_quantities : List Nat) : Option ShippingEvent :=
  let fulfilled_lines :=
    ((lines.zip fulfilled_quantities).filter
      (fun p => decide (0 < p.2) && p.1.status == LineStatus.COMPLETE)).map Prod.fst
  if fulfilled_lines.isEmpty then none
  else some { event_type := event_type, lines := fulfilled_lines }

/-! ### Fulfillment engine and retry view -/

inductive FulfillmentOutcome
  | Complete
  | ConfigurationError
  | NetworkError
  | TimeoutError
  | ServerError
deriving Repr, DecidableEq

def line_status_of_outcome : FulfillmentOutcome → String
  | FulfillmentOutcome.Complete => LineStatus.COMPLETE
  | FulfillmentOutcome.ConfigurationError => LineStatus.FULFILLMENT_CONFIGURATION_ERROR
  | FulfillmentOutcome.NetworkError => LineStatus.FULFILLMENT_NETWORK_ERROR
  | FulfillmentOutcome.TimeoutError => LineStatus.FULFILLMENT_TIMEOUT_ERROR
  | FulfillmentOutcome.ServerError => LineStatus.FULFILLMENT_SERVER_ERROR

/-- Modelled from the spec: the Order model
(`ecommerce.extensions.order.models`) is not under src — only its tests and
callers are.  `can_retry_fulfillment` is true iff the order's status is
Fulfillment Error. -/
def can_retry_fulfillment (o : Order) : Bool :=
  o.status == OrderStatus.FULFILLMENT_ERROR

def SHIPPING_EVENT_NAME : String := "shipped"

/-- Modelled from the spec: `FulfillmentMixin._fulfill_order`
(`ecommerce.extensions.fulfillment.mixins`) is not under src.  Per the spec,
each line not already Complete is re-invoked through the fulfillment
capability registered for its product and takes the status of the outcome;
the order status becomes Complete when every line is Complete and
Fulfillment Error otherwise; the event handler is invoked with the line set
and a fulfilled-quantity vector holding 1 for newly complete lines. -/
def fulfill_order (cap : Nat → FulfillmentOutcome) (o : Order) :
    Order × Option ShippingEvent :=
  let lines1 := o.lines.map (fun l =>
    if l.status == LineStatus.COMPLETE then l
    else { l with status := line_status_of_outcome (cap l.product) })
  let fulfilled_quantities := (o.lines.zip lines1).map (fun p =>
    if p.1.status != LineStatus.COMPLETE && p.2.status == LineStatus.COMPLETE then 1 else 0)
  let st := if lines1.all (fun l => l.status == LineStatus.COMPLETE)
    then OrderStatus.COMPLETE else OrderStatus.FULFILLMENT_ERROR
  ({ o with lines := lines1, status := st },
   create_shipping_event SHIPPING_EVENT_NAME lines1 fulfilled_quantities)

/-- Responses of `FulfillOrderView.update`: 406 when the order is not
retryable, 500 (with no body) when fulfillment still fails, 200 with the
serialized order on success. -/
inductive FulfillResponse
  | notAcceptable
  | internalFailure
  | ok (order : Order)
deriving Repr, DecidableEq

/-- `FulfillOrderView.update` from api/views.py: reject non-retryable orders,
re-run fulfillment, return a 500 response when the order can still be
retried afterwards, and the serialized order otherwise. -/
def FulfillOrderView_update (cap : Nat → FulfillmentOutcome) (o : Order) :
    FulfillResponse :=
  if !can_retry_fulfillment o then FulfillResponse.notAcceptable
  else
    let o2 := (fulfill_order cap o).1
    if can_retry_fulfillment o2 then FulfillResponse.internalFailure
    else FulfillResponse.ok o2

/-! ### Payment recording, from ecommerce/extensions/checkout/mixins.py -/

structure Source where
  source_type : String
  reference : String
  amount_allocated : Nat
deriving Repr, DecidableEq

structure PaymentEvent where
  event_type : String
  amount : Nat
  reference : String
deriving Repr, DecidableEq

/-- The payment staging owned by the order-placement mixin together with the
SourceType table: `source_types` is the set of payment source-type names,
`payment_sources` and `payment_events` are the staged sources and events. -/
structure PaymentState where
  source_types : List String
  payment_sources : List Source
  payment_events : List PaymentEvent
deriving Repr, DecidableEq

/-- Modelled from the spec: `PPC.PAYMENT_EVENT_NAMES.SETTLEMENT`
(`ecommerce.extensions.payment.constants`) is not under src; the spec calls
it a payment settlement event. -/
def SETTLEMENT_EVENT_NAME : String := "Settlement"

/-- `SourceType.objects.get_or_create(name=...)`: reuse the existing
source type keyed by the processor name, create it only when absent. -/
def get_or_create_source_type (st : PaymentState) (name : String) : PaymentState :=
  if name ∈ st.source_types then st
  else { st with source_types := st.source_types ++ [name] }

/-- Oscar's `OrderPlacementMixin.add_payment_source`: append the source to
the staged list (no deduplication). -/
def add_payment_source (st : PaymentState) (s : Source) : PaymentState :=
  { st with payment_sources := st.payment_sources ++ [s] }

/-- Oscar's `OrderPlacementMixin.add_payment_event`: append the event. -/
def add_payment_event (st : PaymentState) (event_type : String) (amount : Nat)
    (reference : String) : PaymentState :=
  { st with payment_events := st.payment_events ++
      [{ event_type := event_type, amount := amount, reference := reference }] }

/-- `EdxOrderPlacementMixin.handle_payment`: get-or-create the source type
for the processor, stage one source carrying the charge reference and the
allocated amount, and append one settlement event with that reference. -/
def handle_payment (st : PaymentState) (processor_name reference : String)
    (total : Nat) : PaymentState :=
  let st1 := get_or_create_source_type st processor_name
  let st2 := add_payment_source st1
    { source_type := processor_name, reference := reference, amount_allocated := total }
  add_payment_event st2 SETTLEMENT_EVENT_NAME total reference

/-- Total amount allocated across staged sources carrying a reference. -/
def allocated_total (st : PaymentState) (r : String) : Nat :=
  ((st.payment_sources.filter (fun s => s.reference == r)).map
    Source.amount_allocated).sum

/-! ### Basket-checkout view, from BasketCreateAPIView in api/views.py -/

/-- Payment parameters produced by the payment processor for a frozen
basket (`generate_transaction_parameters`): the docstring example shows the
basket total as the amount and the basket id as the reference number. -/
structure PaymentParameters where
  amount : Nat
  reference_number : String
deriving Repr, DecidableEq

def generate_transaction_parameters (b : Basket) : PaymentParameters :=
  { amount := basket_total_excl_tax b, reference_number := toString b.id }

/-- The response body assembled by the view: the serialized basket view plus
the `order` and `payment_parameters` fields. -/
structure BasketResponse where
  basket_id : Nat
  basket_status : BasketStatus
  total_excl_tax : Nat
  order : Option Order
  payment_parameters : Option PaymentParameters
deriving Repr, DecidableEq

/-- `BasketCreateAPIView._generate_response_precursor`: serialize the basket
and set both the order and payment-parameter placeholders to null. -/
def generate_response_precursor (b : Basket) : BasketResponse :=
  { basket_id := b.id
    basket_status := b.status
    total_excl_tax := basket_total_excl_tax b
    order := none
    payment_parameters := none }

/-- Steps of a checkout execution, recorded in program order. -/
inductive CheckoutStep
  | freezeBasket
  | placeOrder
  | generatePaymentParameters
deriving Repr, DecidableEq

/-- Oscar's `handle_order_placement` as composed by `EdxOrderPlacementMixin`:
place the order in the initial status supplied by
`get_initial_order_status`, submit the basket, and immediately attempt
fulfillment of the new order (`handle_successful_order`). -/
def handle_order_placement (cap : Nat → FulfillmentOutcome) (b : Basket) :
    Order × Basket :=
  let order := place_order b (basket_total_excl_tax b) (get_initial_order_status b)
  let b2 := submit b
  ((fulfill_order cap order).1, b2)

/-- `BasketCreateAPIView._checkout`: freeze the basket, build the response
precursor, then either place (and fulfill) an order when the basket total is
free, or generate payment parameters otherwise.  The returned trace lists
the checkout steps in the order the code performs them. -/
def checkout (cap : Nat → FulfillmentOutcome) (b : Basket) :
    BasketResponse × Basket × List CheckoutStep :=
  let frozen := freeze b
  let pre := generate_response_precursor frozen
  if basket_total_excl_tax frozen == AC_FREE then
    let placed := handle_order_placement cap frozen
    ({ pre with order := some placed.1 }, placed.2,
     [CheckoutStep.freezeBasket, CheckoutStep.placeOrder])
  else
    ({ pre with payment_parameters := some (generate_transaction_parameters frozen) },
     frozen,
     [CheckoutStep.freezeBasket, CheckoutStep.generatePaymentParameters])

/-- JSON values a request body field can hold. -/
inductive PyValue
  | none
  | bool (b : Bool)
  | str (s : String)
  | int (n : Int)
deriving Repr, DecidableEq

/-- Python's `value is True`: an identity check against the boolean True
object; no other value (including truthy strings and the integer 1)
satisfies it. -/
def py_is_True : PyValue → Bool
  | PyValue.bool true => true
  | _ => false

/-- The tail of `BasketCreateAPIView.create` after the product was added:
`self._checkout(basket) if is_checkout is True else
self._generate_response_precursor(basket)`.  Returns the response body, the
resulting basket, and the trace of checkout steps performed. -/
def basket_create (cap : Nat → FulfillmentOutcome) (b : Basket)
    (is_checkout : PyValue) : BasketResponse × Basket × List CheckoutStep :=
  if py_is_True is_checkout then checkout cap b
  else (generate_response_precursor b, b, [])

/-! ### Processor notification view, from ecommerce/extensions/payment/views.py -/

/-- The result of `Cybersource().handle_processor_response`: whether the
notification validated, and the order number it refers to. -/
structure ProcessorResult where
  success : Bool
  order_number : String
deriving Repr, DecidableEq

/-- Persistent state the notification view can touch: the order table plus
the payment records. -/
structure SystemState where
  orders : List Order
  payments : PaymentState
deriving Repr, DecidableEq

inductive HttpOutcome
  | ok
  | internalFailure
deriving Repr, DecidableEq

/-- Modelled from the spec: `PC.PAID_EVENT_NAME`
(`ecommerce.extensions.payment.constants`) is not under src. -/
def PAID_EVENT_NAME : String := "Paid"

/-- `CybersourceNotificationView._register_payment`: get-or-create the
source type, stage a source allocated with the order total, append a paid
event referencing the order number, and move the order to status Paid. -/
def register_payment (st : PaymentState) (o : Order) (processor_name : String) :
    PaymentState × Order :=
  let st1 := get_or_create_source_type st processor_name
  let st2 := add_payment_source st1
    { source_type := processor_name, reference := "", amount_allocated := o.total_excl_tax }
  let st3 := add_payment_event st2 PAID_EVENT_NAME o.total_excl_tax o.number
  (st3, { o with status := FulfillmentORDER.PAID })

def CYBERSOURCE_NAME : String := "Cybersource"

/-- `CybersourceNotificationView.post`: when the processor response
validates, look up the order by the notification's order number, register
the payment against it and fulfill it; otherwise do nothing.  Either way the
endpoint answers 200 (an order lookup miss raises, surfacing as a server
error). -/
def cybersource_notification_post (cap : Nat → FulfillmentOutcome)
    (result : ProcessorResult) (st : SystemState) : HttpOutcome × SystemState :=
  if result.success then
    match st.orders.find? (fun o => o.number == result.order_number) with
    | Option.none => (HttpOutcome.internalFailure, st)
    | Option.some o =>
        let reg := register_payment st.payments o CYBERSOURCE_NAME
        let fulfilled := (fulfill_order cap reg.2).1
        (HttpOutcome.ok,
         { orders := st.orders.map (fun x => if x.number == o.number then fulfilled else x)
           payments := reg.1 })
  else (HttpOutcome.ok, st)

/-! ### The defined order statuses

The order-model tests (order/tests/test_models.py) enumerate the full set of
defined order statuses; the four beyond src's OrderStatus constants
(Order Cancelled, Being Processed, Payment Cancelled, Paid) live in the
status module that is not under src and are modelled from the spec and the
tests, each distinct from the others. -/

inductive DefinedOrderStatus
  | OPEN
  | ORDER_CANCELLED
  | BEING_PROCESSED
  | PAYMENT_CANCELLED
  | PAID
  | COMPLETE
  | REFUNDED
  | FULFILLMENT_ERROR
deriving Repr, DecidableEq

def status_text : DefinedOrderStatus → String
  | DefinedOrderStatus.OPEN => OrderStatus.OPEN
  | DefinedOrderStatus.ORDER_CANCELLED => "Order Cancelled"
  | DefinedOrderStatus.BEING_PROCESSED => "Being Processed"
  | DefinedOrderStatus.PAYMENT_CANCELLED => "Payment Cancelled"
  | DefinedOrderStatus.PAID => FulfillmentORDER.PAID
  | DefinedOrderStatus.COMPLETE => OrderStatus.COMPLETE
  | DefinedOrderStatus.REFUNDED => OrderStatus.REFUNDED
  | DefinedOrderStatus.FULFILLMENT_ERROR => OrderStatus.FULFILLMENT_ERROR

/-! ### Concrete inputs used by witnesses and counterexamples -/

def demo_basket : Basket :=
  { id := 1, owner := 7, status := BasketStatus.Open, lines := [] }

def demo_error_order : Order :=
  { number := "OSCR-100001", owner := 7, status := OrderStatus.FULFILLMENT_ERROR,
    total_excl_tax := 0,
    lines := [{ id := 0, product := 11, quantity := 1,
                status := LineStatus.FULFILLMENT_NETWORK_ERROR }] }

def empty_payment_state : PaymentState :=
  { source_types := [], payment_sources := [], payment_events := [] }

def demo_system_state : SystemState :=
  { orders := [demo_error_order], payments := empty_payment_state }

def demo_cap : Nat → FulfillmentOutcome := fun _ => FulfillmentOutcome.Complete

def demo_net_cap : Nat → FulfillmentOutcome := fun _ => FulfillmentOutcome.NetworkError

def demo_paid_basket : Basket :=
  { id := 2, owner := 7, status := BasketStatus.Open,
    lines := [{ product := 21, quantity := 1, unit_price_excl_tax := 10 }] }

/-- A store holding two Open baskets for owner 7 (with a duplicated product)
and one Open basket for another owner. -/
def demo_store : List Basket :=
  [{ id := 1, owner := 7, status := BasketStatus.Open,
     lines := [{ product := 100, quantity := 2, unit_price_excl_tax := 5 }] },
   { id := 2, owner := 7, status := BasketStatus.Open,
     lines := [{ product := 100, quantity := 3, unit_price_excl_tax := 5 },
               { product := 200, quantity := 1, unit_price_excl_tax := 4 }] },
   { id := 3, owner := 8, status := BasketStatus.Open, lines := [] }]

/-! ## Helper lemmas -/

/-- Freezing a basket does not change its lines, hence not its total. -/
theorem total_freeze (b : Basket) :
    basket_total_excl_tax (freeze b) = basket_total_excl_tax b := rfl

theorem freeze_id (b : Basket) : (freeze b).id = b.id := rfl

theorem freeze_status (b : Basket) : (freeze b).status = BasketStatus.Frozen := rfl

/-- `value is True` fails for every value other than the boolean True. -/
theorem py_is_True_eq_false_of_ne (v : PyValue) (h : v ≠ PyValue.bool true) :
    py_is_True v = false := by
  cases v with
  | bool bb =>
      cases bb with
      | true => exact absurd rfl h
      | false => rfl
  | none => rfl
  | str s => rfl
  | int n => rfl

/-- With editable statuses being exactly [Open], editability is the
owner-and-Open check. -/
theorem editable_open (user : Nat) (b : Basket) :
    is_editable_for user b = (b.owner == user && b.status == BasketStatus.Open) := by
  rcases b with ⟨i, o, st, ls⟩
  cases st <;> rfl

/-- A line already found under a product is untouched by merging one more
stale line without summing quantities. -/
theorem merge_line_find (lines : List BLine) (l : BLine) (p : Nat) (x : BLine)
    (h : lines.find? (fun y => y.product == p) = some x) :
    (merge_line lines l false).find? (fun y => y.product == p) = some x := by
  unfold merge_line
  by_cases hc : lines.any (fun z => z.product == l.product) = true
  · simpa [hc] using h
  · simp only [Bool.not_eq_true] at hc
    simp only [hc, Bool.false_eq_true, if_false]
    rw [List.find?_append, h]
    rfl

/-- A line already found under a product survives a whole stale-line merge
pass unchanged. -/
theorem merge_lines_find (stale survivor : List BLine) (p : Nat) (x : BLine)
    (h : survivor.find? (fun y => y.product == p) = some x) :
    (merge_lines survivor stale false).find? (fun y => y.product == p) = some x := by
  induction stale generalizing survivor with
  | nil => exact h
  | cons a t ih => exact ih (merge_line survivor a false) (merge_line_find survivor a p x h)

/-- A line already found under a product survives merging every stale
basket. -/
theorem foldl_merge_find (stales : List Basket) (acc : List BLine) (p : Nat) (x : BLine)
    (h : acc.find? (fun y => y.product == p) = some x) :
    (stales.foldl (fun a s => merge_lines a s.lines false) acc).find?
      (fun y => y.product == p) = some x := by
  induction stales generalizing acc with
  | nil => exact h
  | cons b t ih => exact ih (merge_lines acc b.lines false) (merge_lines_find b.lines acc p x h)

/-- Membership in a zip of equal-length lists, characterized by index. -/
theorem mem_zip_iff_index {α β : Type} (l1 : List α) (l2 : List β)
    (h : l1.length = l2.length) (x : α) (q : β) :
    (x, q) ∈ l1.zip l2 ↔
      ∃ (i : Nat) (h1 : i < l1.length) (h2 : i < l2.length),
        l1[i] = x ∧ l2[i] = q := by
  rw [List.mem_iff_getElem]
  constructor
  · rintro ⟨i, hi, hget⟩
    have h1 : i < l1.length := by
      rw [List.length_zip] at hi
      omega
    have h2 : i < l2.length := by
      rw [List.length_zip] at hi
      omega
    have hz : (l1.zip l2)[i] = (l1[i], l2[i]) := List.getElem_zip ..
    rw [hz] at hget
    exact ⟨i, h1, h2, congrArg Prod.fst hget, congrArg Prod.snd hget⟩
  · rintro ⟨i, h1, h2, hx, hq⟩
    have hi : i < (l1.zip l2).length := by
      rw [List.length_zip]
      omega
    refine ⟨i, hi, ?_⟩
    have hz : (l1.zip l2)[i] = (l1[i], l2[i]) := List.getElem_zip ..
    rw [hz, hx, hq]

/-- Membership in the filtered line set built by `create_shipping_event`,
characterized by index: a line occurs there iff some position holds it with
a positive fulfilled quantity and status Complete. -/
theorem mem_fulfilled_lines_iff (lines : List OrderLine) (qs : List Nat)
    (hlen : lines.length = qs.length) (x : OrderLine) :
    (x ∈ ((lines.zip qs).filter
        (fun p => decide (0 < p.2) && p.1.status == LineStatus.COMPLETE)).map Prod.fst) ↔
      ∃ (i : Nat) (h1 : i < lines.length) (h2 : i < qs.length),
        lines[i] = x ∧ 0 < qs[i] ∧ x.status = LineStatus.COMPLETE := by
  rw [List.mem_map]
  constructor
  · rintro ⟨p, hp, rfl⟩
    rw [List.mem_filter] at hp
    obtain ⟨hmem, hcond⟩ := hp
    have hmem2 : (p.1, p.2) ∈ lines.zip qs := by simpa using hmem
    obtain ⟨i, h1, h2, hx, hq⟩ := (mem_zip_iff_index lines qs hlen p.1 p.2).mp hmem2
    simp only [Bool.and_eq_true, decide_eq_true_eq, beq_iff_eq] at hcond
    exact ⟨i, h1, h2, hx, hq ▸ hcond.1, hcond.2⟩
  · rintro ⟨i, h1, h2, hx, hq, hst⟩
    refine ⟨(lines[i], qs[i]), ?_, by rw [hx]⟩
    rw [List.mem_filter]
    refine ⟨(mem_zip_iff_index lines qs hlen _ _).mpr ⟨i, h1, h2, rfl, rfl⟩, ?_⟩
    simp only [Bool.and_eq_true, decide_eq_true_eq, beq_iff_eq]
    exact ⟨hq, by rw [hx]; exact hst⟩

/-! ## Claim theorems -/

/-- Claim C1 counterexample: `get_initial_order_status` does not return the
Open order status — on a concrete basket it returns a different status. -/
theorem C1_counterexample :
    ¬ (get_initial_order_status demo_basket = OrderStatus.OPEN) := by
  decide

/-- Claim C1 (amended): the deprecated order-creation view passes initial
status Open to order placement for every basket, but
`get_initial_order_status` (used by the basket-checkout flow) returns Paid,
which is not the Open status, for every basket. -/
theorem C1_amended_initial_status (b : Basket) (product unit_price : Nat) :
    (prepare_order b product unit_price).1.status = OrderStatus.OPEN ∧
    get_initial_order_status b = FulfillmentORDER.PAID ∧
    (get_initial_order_status b == OrderStatus.OPEN) = false := by
  refine ⟨rfl, rfl, ?_⟩
  show (FulfillmentORDER.PAID == OrderStatus.OPEN) = false
  decide

/-- Claim C4: `create_shipping_event` includes in the event exactly the
lines whose parallel fulfilled quantity is positive and whose status is
Complete at call time, and creates no event at all when that filtered set
is empty. -/
theorem C4_create_shipping_event_filter (et : String) (lines : List OrderLine)
    (qs : List Nat) (hlen : lines.length = qs.length)
    (hids : (lines.map OrderLine.id).Nodup) :
    (create_shipping_event et lines qs = none ↔
      ∀ (i : Nat) (h1 : i < lines.length) (h2 : i < qs.length),
        ¬(0 < qs[i] ∧ lines[i].status = LineStatus.COMPLETE)) ∧
    (∀ e, create_shipping_event et lines qs = some e →
      e.lines ≠ [] ∧
      (∀ l ∈ e.lines, l ∈ lines ∧ l.status = LineStatus.COMPLETE) ∧
      (∀ (i : Nat) (h1 : i < lines.length) (h2 : i < qs.length),
        (lines[i] ∈ e.lines ↔
          (0 < qs[i] ∧ lines[i].status = LineStatus.COMPLETE)))) := by
  have hform : create_shipping_event et lines qs
      = (if (((lines.zip qs).filter
              (fun p => decide (0 < p.2) && p.1.status == LineStatus.COMPLETE)).map
            Prod.fst).isEmpty
         then none
         else some { event_type := et,
                     lines := ((lines.zip qs).filter
                        (fun p => decide (0 < p.2) && p.1.status == LineStatus.COMPLETE)).map
                       Prod.fst }) := rfl
  have key : ((((lines.zip qs).filter
        (fun p => decide (0 < p.2) && p.1.status == LineStatus.COMPLETE)).map
      Prod.fst) = []) ↔
      (∀ (i : Nat) (h1 : i < lines.length) (h2 : i < qs.length),
        ¬(0 < qs[i] ∧ lines[i].status = LineStatus.COMPLETE)) := by
    rw [List.eq_nil_iff_forall_not_mem]
    constructor
    · intro hall i h1 h2 hcond
      exact hall lines[i]
        ((mem_fulfilled_lines_iff lines qs hlen lines[i]).mpr
          ⟨i, h1, h2, rfl, hcond.1, hcond.2⟩)
    · intro hnone x hx
      obtain ⟨i, h1, h2, hxeq, hq, hst⟩ :=
        (mem_fulfilled_lines_iff lines qs hlen x).mp hx
      exact hnone i h1 h2 ⟨hq, by rw [hxeq]; exact hst⟩
  by_cases hemp : (((lines.zip qs).filter
      (fun p => decide (0 < p.2) && p.1.status == LineStatus.COMPLETE)).map
    Prod.fst).isEmpty = true
  · have hnil := List.isEmpty_iff.mp hemp
    constructor
    · rw [hform, if_pos hemp]
      simp only [true_iff]
      exact key.mp hnil
    · intro e he
      rw [hform, if_pos hemp] at he
      exact absurd he (by simp)
  · have hnil : ¬((((lines.zip qs).filter
        (fun p => decide (0 < p.2) && p.1.status == LineStatus.COMPLETE)).map
      Prod.fst) = []) := by
      intro hc
      exact hemp (List.isEmpty_iff.mpr hc)
    rw [hform, if_neg hemp]
    constructor
    · constructor
      · intro hc
        exact absurd hc (by simp)
      · intro hall
        exact absurd (key.mpr hall) hnil
    · intro e he
      have he2 : e = { event_type := et,
                       lines := ((lines.zip qs).filter
                          (fun p => decide (0 < p.2) && p.1.status == LineStatus.COMPLETE)).map
                         Prod.fst } := by
        exact (Option.some.injEq ..).mp he.symm
      subst he2
      refine ⟨hnil, ?_, ?_⟩
      · intro l hl
        obtain ⟨i, h1, h2, hxeq, hq, hst⟩ :=
          (mem_fulfilled_lines_iff lines qs hlen l).mp hl
        exact ⟨hxeq ▸ List.getElem_mem h1, hst⟩
      · intro i h1 h2
        constructor
        · intro hmem
          obtain ⟨j, hj1, hj2, hjeq, hjq, hjst⟩ :=
            (mem_fulfilled_lines_iff lines qs hlen lines[i]).mp hmem
          have hij : j = i := by
            have hj1m : j < (lines.map OrderLine.id).length := by simpa using hj1
            have h1m : i < (lines.map OrderLine.id).length := by simpa using h1
            have hid : (lines.map OrderLine.id)[j] = (lines.map OrderLine.id)[i] := by
              rw [List.getElem_map, List.getElem_map, hjeq]
            exact hids.getElem_inj_iff.mp hid
          subst hij
          exact ⟨hjq, by rw [hjeq] at hjst; exact hjst⟩
        · intro hcond
          exact (mem_fulfilled_lines_iff lines qs hlen lines[i]).mpr
            ⟨i, h1, h2, rfl, hcond.1, hcond.2⟩

/-- Witness for C4, mirroring the mixed-status scenario of the src tests:
one Complete line and one Fulfillment Configuration Error line with
fulfilled quantities [1, 1] produce an event covering exactly the Complete
line. -/
theorem C4_witness :
    ([({ id := 1, product := 31, quantity := 1, status := LineStatus.COMPLETE } : OrderLine),
      { id := 2, product := 32, quantity := 1,
        status := LineStatus.FULFILLMENT_CONFIGURATION_ERROR }].length = [1, 1].length) ∧
    (([({ id := 1, product := 31, quantity := 1, status := LineStatus.COMPLETE } : OrderLine),
       { id := 2, product := 32, quantity := 1,
         status := LineStatus.FULFILLMENT_CONFIGURATION_ERROR }].map OrderLine.id).Nodup) ∧
    (∀ e, create_shipping_event SHIPPING_EVENT_NAME
        [({ id := 1, product := 31, quantity := 1, status := LineStatus.COMPLETE } : OrderLine),
         { id := 2, product := 32, quantity := 1,
           status := LineStatus.FULFILLMENT_CONFIGURATION_ERROR }] [1, 1] = some e →
      e.lines ≠ [] ∧
      (∀ l ∈ e.lines, l ∈
          [({ id := 1, product := 31, quantity := 1, status := LineStatus.COMPLETE } : OrderLine),
           { id := 2, product := 32, quantity := 1,
             status := LineStatus.FULFILLMENT_CONFIGURATION_ERROR }] ∧
        l.status = LineStatus.COMPLETE) ∧
      (∀ (i : Nat)
          (h1 : i < [({ id := 1, product := 31, quantity := 1,
                        status := LineStatus.COMPLETE } : OrderLine),
                     { id := 2, product := 32, quantity := 1,
                       status := LineStatus.FULFILLMENT_CONFIGURATION_ERROR }].length)
          (h2 : i < [1, 1].length),
        ([({ id := 1, product := 31, quantity := 1, status := LineStatus.COMPLETE } : OrderLine),
          { id := 2, product := 32, quantity := 1,
            status := LineStatus.FULFILLMENT_CONFIGURATION_ERROR }][i] ∈ e.lines ↔
          (0 < [1, 1][i] ∧
            [({ id := 1, product := 31, quantity := 1,
                status := LineStatus.COMPLETE } : OrderLine),
             { id := 2, product := 32, quantity := 1,
               status := LineStatus.FULFILLMENT_CONFIGURATION_ERROR }][i].status
              = LineStatus.COMPLETE)))) :=
  ⟨rfl, by decide,
    (C4_create_shipping_event_filter SHIPPING_EVENT_NAME
      [{ id := 1, product := 31, quantity := 1, status := LineStatus.COMPLETE },
       { id := 2, product := 32, quantity := 1,
         status := LineStatus.FULFILLMENT_CONFIGURATION_ERROR }] [1, 1] rfl (by decide)).2⟩

/-- Claim C5: for every order whose status is one of the defined order
statuses, `can_retry_fulfillment` is true iff that status is
Fulfillment Error, and false for every other defined status. -/
theorem C5_can_retry_iff (o : Order) (s : DefinedOrderStatus)
    (h : o.status = status_text s) :
    (can_retry_fulfillment o = true ↔ s = DefinedOrderStatus.FULFILLMENT_ERROR) := by
  rw [show can_retry_fulfillment o = (o.status == OrderStatus.FULFILLMENT_ERROR) from rfl, h]
  cases s <;> decide

/-- Witness for C5 at a concrete order in status Fulfillment Error. -/
theorem C5_witness :
    demo_error_order.status = status_text DefinedOrderStatus.FULFILLMENT_ERROR ∧
    (can_retry_fulfillment demo_error_order = true ↔
      DefinedOrderStatus.FULFILLMENT_ERROR = DefinedOrderStatus.FULFILLMENT_ERROR) :=
  ⟨rfl, C5_can_retry_iff demo_error_order DefinedOrderStatus.FULFILLMENT_ERROR rfl⟩

/-- Claim C6 counterexample: invoking `handle_payment` twice with the same
processor and the same charge reference stages two payment sources carrying
that reference and allocates the amount twice (20 instead of 10). -/
theorem C6_counterexample :
    ((handle_payment (handle_payment empty_payment_state "Cybersource" "ref-1" 10)
        "Cybersource" "ref-1" 10).payment_sources.countP
      (fun s => s.reference == "ref-1") = 2) ∧
    allocated_total
      (handle_payment (handle_payment empty_payment_state "Cybersource" "ref-1" 10)
        "Cybersource" "ref-1" 10) "ref-1" = 20 := by
  decide

/-- Claim C6 (amended): `handle_payment` is not idempotent in the charge
identity — invoking it twice with the same processor and reference stages
two further sources with that reference and allocates the amount twice;
only the source type keyed by the processor name is reused rather than
duplicated. -/
theorem C6_amended_double_allocation (st : PaymentState) (p r : String) (t : Nat) :
    ((handle_payment (handle_payment st p r t) p r t).payment_sources.countP
        (fun s => s.reference == r)
      = st.payment_sources.countP (fun s => s.reference == r) + 2) ∧
    (allocated_total (handle_payment (handle_payment st p r t) p r t) r
      = allocated_total st r + 2 * t) ∧
    ((handle_payment (handle_payment st p r t) p r t).source_types
      = if p ∈ st.source_types then st.source_types else st.source_types ++ [p]) := by
  unfold handle_payment add_payment_event add_payment_source get_or_create_source_type
    allocated_total
  by_cases h : p ∈ st.source_types <;>
    simp [h, List.countP_append, List.filter_append, List.sum_append,
      List.countP_cons, List.mem_append] <;>
    omega

/-- Claim C9: a payment-processor notification whose validation failed
changes no order or payment state and the endpoint still answers with a
success response. -/
theorem C9_failed_notification_dropped (cap : Nat → FulfillmentOutcome)
    (result : ProcessorResult) (st : SystemState) (h : result.success = false) :
    cybersource_notification_post cap result st = (HttpOutcome.ok, st) := by
  unfold cybersource_notification_post
  simp [h]

/-- Claim C2: for every owner and any number of pre-existing Open baskets in
a well-formed store, `get_basket` returns an Open basket that is in the
resulting store, afterwards exactly one basket of that owner is Open, every
non-surviving Open basket of the owner is Merged (its lines moved out), and
a duplicated product keeps the survivor's own line — quantities are not
summed. -/
theorem C2_get_basket_single_open (store : List Basket) (user fid : Nat)
    (hnodup : (store.map Basket.id).Nodup)
    (hfresh : fid ∉ store.map Basket.id) :
    ((get_basket store user fid).1.status = BasketStatus.Open) ∧
    ((get_basket store user fid).1 ∈ (get_basket store user fid).2) ∧
    ((get_basket store user fid).2.countP
        (fun b => b.owner == user && b.status == BasketStatus.Open) = 1) ∧
    (∀ b ∈ store, b.owner = user → b.status = BasketStatus.Open →
      b.id ≠ (get_basket store user fid).1.id →
      ({ id := b.id, owner := b.owner, status := BasketStatus.Merged,
         lines := [] } : Basket) ∈ (get_basket store user fid).2) ∧
    (∀ b ∈ store, b.id = (get_basket store user fid).1.id →
      b.owner = user → b.status = BasketStatus.Open →
      ∀ (p : Nat) (x : BLine), b.lines.find? (fun y => y.product == p) = some x →
        (get_basket store user fid).1.lines.find? (fun y => y.product == p) = some x) := by
  cases hfilt : store.filter (is_editable_for user) with
  | nil =>
    have hres : get_basket store user fid
        = ({ id := fid, owner := user, status := BasketStatus.Open, lines := [] },
           store ++
             [{ id := fid, owner := user, status := BasketStatus.Open, lines := [] }]) := by
      unfold get_basket
      rw [hfilt]
    have hnone : ∀ b ∈ store, ¬ is_editable_for user b = true :=
      List.filter_eq_nil_iff.mp hfilt
    rw [hres]
    refine ⟨rfl, by simp, ?_, ?_, ?_⟩
    · rw [List.countP_append]
      have h0 : store.countP (fun b => b.owner == user && b.status == BasketStatus.Open) = 0 := by
        apply List.countP_eq_zero.mpr
        intro b hb hcontra
        exact hnone b hb (by rw [editable_open]; exact hcontra)
      rw [h0]
      simp
    · intro b hb hbo hbs _
      exact absurd (by rw [editable_open]; simp [hbo, hbs]) (hnone b hb)
    · intro b hb hid _ _
      have hid2 : b.id = fid := hid
      exact absurd (hid2 ▸ List.mem_map_of_mem Basket.id hb) hfresh
  | cons survivor stales =>
    have hres : get_basket store user fid
        = (merged_survivor survivor stales, store.map (apply_merge survivor stales)) := by
      unfold get_basket
      rw [hfilt]
    have hsurv_f : survivor ∈ store.filter (is_editable_for user) := by
      rw [hfilt]
      exact List.mem_cons_self ..
    have hsurv_mem : survivor ∈ store := (List.mem_filter.mp hsurv_f).1
    have hsurv : survivor.owner = user ∧ survivor.status = BasketStatus.Open := by
      have h2 := (List.mem_filter.mp hsurv_f).2
      rw [editable_open] at h2
      simpa using h2
    have hinj : ∀ a ∈ store, ∀ c ∈ store, a.id = c.id → a = c := by
      intro a ha c hc h
      exact List.inj_on_of_nodup_map hnodup ha hc h
    have happ_surv : apply_merge survivor stales survivor = merged_survivor survivor stales := by
      unfold apply_merge
      simp
    have hpt : ∀ b ∈ store,
        ((apply_merge survivor stales b).owner == user &&
          (apply_merge survivor stales b).status == BasketStatus.Open) = true
          ↔ (b.id == survivor.id) = true := by
      intro b hb
      by_cases hid : b.id = survivor.id
      · have hb_eq : b = survivor := hinj b hb survivor hsurv_mem hid
        subst hb_eq
        rw [happ_surv]
        simp [merged_survivor, hsurv.1, hsurv.2]
      · have hbeq : (b.id == survivor.id) = false := beq_eq_false_iff_ne.mpr hid
        unfold apply_merge
        rw [hbeq]
        simp only [Bool.false_eq_true, if_false]
        by_cases hsid : b.id ∈ stales.map Basket.id
        · simp [hsid, hbeq]
        · rw [if_neg hsid]
          simp only [hbeq, Bool.and_eq_true, beq_iff_eq, iff_false, not_and,
            Bool.false_eq_true]
          intro hbo hbs
          have hbf : b ∈ store.filter (is_editable_for user) :=
            List.mem_filter.mpr ⟨hb, by rw [editable_open]; simp [hbo, hbs]⟩
          rw [hfilt] at hbf
          rcases List.mem_cons.mp hbf with hcase | hcase
          · exact absurd (congrArg Basket.id hcase) hid
          · exact absurd (List.mem_map_of_mem Basket.id hcase) hsid
    rw [hres]
    refine ⟨hsurv.2, List.mem_map.mpr ⟨survivor, hsurv_mem, happ_surv⟩, ?_, ?_, ?_⟩
    · have h1 : (store.map (apply_merge survivor stales)).countP
          (fun b => b.owner == user && b.status == BasketStatus.Open)
          = store.countP (fun b => b.id == survivor.id) := by
        rw [List.countP_map]
        exact List.countP_congr (fun b hb => hpt b hb)
      have h2 : store.countP (fun b => b.id == survivor.id)
          = (store.map Basket.id).count survivor.id := by
        rw [show (store.map Basket.id).count survivor.id
            = (store.map Basket.id).countP (fun i => i == survivor.id) from rfl,
          List.countP_map]
        rfl
      have h3 : (store.map Basket.id).count survivor.id = 1 :=
        List.count_eq_one_of_mem hnodup (List.mem_map_of_mem Basket.id hsurv_mem)
      rw [h1, h2, h3]
    · intro b hb hbo hbs hbid
      have hbid2 : b.id ≠ survivor.id := hbid
      have hbf : b ∈ store.filter (is_editable_for user) :=
        List.mem_filter.mpr ⟨hb, by rw [editable_open]; simp [hbo, hbs]⟩
      rw [hfilt] at hbf
      rcases List.mem_cons.mp hbf with hcase | hcase
      · exact absurd (congrArg Basket.id hcase) hbid2
      · have happ : apply_merge survivor stales b
            = { id := b.id, owner := b.owner, status := BasketStatus.Merged,
                lines := [] } := by
          unfold apply_merge
          rw [beq_eq_false_iff_ne.mpr hbid2]
          simp only [Bool.false_eq_true, if_false]
          rw [if_pos (List.mem_map_of_mem Basket.id hcase)]
        exact List.mem_map.mpr ⟨b, hb, happ⟩
    · intro b hb hbid hbo hbs p x hfind
      have hbid2 : b.id = survivor.id := hbid
      have hb_eq : b = survivor := hinj b hb survivor hsurv_mem hbid2
      subst hb_eq
      exact foldl_merge_find stales b.lines p x hfind

/-- Witness for C2 on a store with two Open baskets for the owner (one
duplicated product) and one Open basket of another owner. -/
theorem C2_witness :
    ((demo_store.map Basket.id).Nodup ∧ (99 : Nat) ∉ demo_store.map Basket.id) ∧
    (get_basket demo_store 7 99).1.status = BasketStatus.Open ∧
    (get_basket demo_store 7 99).2.countP
      (fun b => b.owner == 7 && b.status == BasketStatus.Open) = 1 :=
  ⟨⟨by decide, by decide⟩,
    (C2_get_basket_single_open demo_store 7 99 (by decide) (by decide)).1,
    (C2_get_basket_single_open demo_store 7 99 (by decide) (by decide)).2.2.1⟩

/-- Claim C3: the basket-create response always carries the basket view and
at most one of a created order or payment parameters: with checkout
requested, a zero basket total yields a non-null order and null payment
parameters, a non-zero total yields non-null payment parameters and a null
order, and without checkout both are null. -/
theorem C3_checkout_response_exclusive (cap : Nat → FulfillmentOutcome)
    (b : Basket) (v : PyValue) :
    ((basket_create cap b v).1.basket_id = b.id) ∧
    ((basket_create cap b v).1.order = none ∨
      (basket_create cap b v).1.payment_parameters = none) ∧
    (py_is_True v = true → basket_total_excl_tax b = AC_FREE →
      (basket_create cap b v).1.order.isSome = true ∧
      (basket_create cap b v).1.payment_parameters = none) ∧
    (py_is_True v = true → basket_total_excl_tax b ≠ AC_FREE →
      (basket_create cap b v).1.payment_parameters.isSome = true ∧
      (basket_create cap b v).1.order = none) ∧
    (py_is_True v = false →
      (basket_create cap b v).1.order = none ∧
      (basket_create cap b v).1.payment_parameters = none) := by
  by_cases hv : py_is_True v = true
  · by_cases ht : basket_total_excl_tax b = AC_FREE <;>
      simp [basket_create, checkout, handle_order_placement,
        generate_response_precursor, total_freeze, freeze_id, hv, ht]
  · simp only [Bool.not_eq_true] at hv
    simp [basket_create, generate_response_precursor, hv]

/-- Witness for C3: checkout of a free basket yields an order and no payment
parameters. -/
theorem C3_witness :
    py_is_True (PyValue.bool true) = true ∧
    basket_total_excl_tax demo_basket = AC_FREE ∧
    ((basket_create demo_cap demo_basket (PyValue.bool true)).1.order.isSome = true ∧
     (basket_create demo_cap demo_basket (PyValue.bool true)).1.payment_parameters = none) :=
  ⟨rfl, rfl,
    (C3_checkout_response_exclusive demo_cap demo_basket (PyValue.bool true)).2.2.1 rfl rfl⟩

/-- Claim C7: in every checkout execution the basket is frozen before any
order placement or payment-parameter generation, and a basket with non-zero
total yields no order and is left Frozen. -/
theorem C7_freeze_before_placement (cap : Nat → FulfillmentOutcome) (b : Basket) :
    (∀ i : Fin (checkout cap b).2.2.length,
        ((checkout cap b).2.2.get i = CheckoutStep.placeOrder ∨
         (checkout cap b).2.2.get i = CheckoutStep.generatePaymentParameters) →
        ∃ j : Fin (checkout cap b).2.2.length, j.val < i.val ∧
          (checkout cap b).2.2.get j = CheckoutStep.freezeBasket) ∧
    (basket_total_excl_tax b ≠ AC_FREE →
      (checkout cap b).1.order = none ∧
      (checkout cap b).2.1.status = BasketStatus.Frozen ∧
      (checkout cap b).2.2.contains CheckoutStep.placeOrder = false) := by
  by_cases ht : basket_total_excl_tax b = AC_FREE
  · have hsteps : (checkout cap b).2.2
        = [CheckoutStep.freezeBasket, CheckoutStep.placeOrder] := by
      simp [checkout, total_freeze, ht]
    constructor
    · rw [hsteps]
      decide
    · intro hne
      exact absurd ht hne
  · have hsteps : (checkout cap b).2.2
        = [CheckoutStep.freezeBasket, CheckoutStep.generatePaymentParameters] := by
      simp [checkout, total_freeze, ht]
    constructor
    · rw [hsteps]
      decide
    · intro _
      refine ⟨?_, ?_, ?_⟩ <;>
        simp [checkout, total_freeze, ht, generate_response_precursor, freeze_status]

/-- Witness for C7: checkout of a priced basket leaves it Frozen with no
order placed. -/
theorem C7_witness :
    basket_total_excl_tax demo_paid_basket ≠ AC_FREE ∧
    ((checkout demo_cap demo_paid_basket).1.order = none ∧
     (checkout demo_cap demo_paid_basket).2.1.status = BasketStatus.Frozen ∧
     (checkout demo_cap demo_paid_basket).2.2.contains CheckoutStep.placeOrder = false) :=
  ⟨by decide, (C7_freeze_before_placement demo_cap demo_paid_basket).2 (by decide)⟩

/-- Claim C10: checkout operations run iff the request's checkout value is
exactly the boolean True; any other value (including the string "true")
yields the precursor response with null order and payment parameters, no
checkout steps, and an unchanged (still Open) basket. -/
theorem C10_checkout_iff_literal_true (cap : Nat → FulfillmentOutcome)
    (b : Basket) (v : PyValue) :
    (v = PyValue.bool true → basket_create cap b v = checkout cap b) ∧
    (v ≠ PyValue.bool true →
      basket_create cap b v = (generate_response_precursor b, b, []) ∧
      (generate_response_precursor b).order = none ∧
      (generate_response_precursor b).payment_parameters = none ∧
      (b.status = BasketStatus.Open → (basket_create cap b v).2.1.status = BasketStatus.Open)) ∧
    ((checkout cap b).2.2.contains CheckoutStep.freezeBasket = true) := by
  refine ⟨?_, ?_, ?_⟩
  · intro hv
    simp [basket_create, hv, py_is_True]
  · intro hv
    have hfalse := py_is_True_eq_false_of_ne v hv
    refine ⟨by simp [basket_create, hfalse], rfl, rfl, ?_⟩
    intro hb
    simp [basket_create, hfalse, hb]
  · by_cases ht : basket_total_excl_tax b = AC_FREE <;>
      simp [checkout, total_freeze, ht]

/-- Witness for C10: the truthy string "true" does not trigger checkout. -/
theorem C10_witness :
    PyValue.str "true" ≠ PyValue.bool true ∧
    basket_create demo_cap demo_basket (PyValue.str "true")
      = (generate_response_precursor demo_basket, demo_basket, []) :=
  ⟨by decide,
    ((C10_checkout_iff_literal_true demo_cap demo_basket (PyValue.str "true")).2.1
      (by decide)).1⟩

/-- Claim C8 counterexample: retrying fulfillment of a retryable order whose
retry fails again does not return the updated serialized order — the view
answers with a bodyless 500 response instead. -/
theorem C8_counterexample :
    can_retry_fulfillment demo_error_order = true ∧
    FulfillOrderView_update demo_net_cap demo_error_order
      = FulfillResponse.internalFailure := by
  decide

/-- Claim C8 (amended): when invoked on a retryable order, the
fulfillment-retry view returns the updated serialized order only when the
retry fulfilled every line (clearing FulfillmentError); when the order is
still in FulfillmentError it returns a 500 response carrying no order. -/
theorem C8_amended_update_outcomes (cap : Nat → FulfillmentOutcome) (o : Order)
    (h : can_retry_fulfillment o = true) :
    ((fulfill_order cap o).1.lines.all (fun l => l.status == LineStatus.COMPLETE) = true →
      FulfillOrderView_update cap o = FulfillResponse.ok (fulfill_order cap o).1) ∧
    ((fulfill_order cap o).1.lines.all (fun l => l.status == LineStatus.COMPLETE) = false →
      FulfillOrderView_update cap o = FulfillResponse.internalFailure) := by
  have hstatus : (fulfill_order cap o).1.status
      = (if (fulfill_order cap o).1.lines.all (fun l => l.status == LineStatus.COMPLETE)
          then OrderStatus.COMPLETE else OrderStatus.FULFILLMENT_ERROR) := rfl
  constructor
  · intro hall
    have hretry : can_retry_fulfillment (fulfill_order cap o).1 = false := by
      rw [show can_retry_fulfillment (fulfill_order cap o).1
          = ((fulfill_order cap o).1.status == OrderStatus.FULFILLMENT_ERROR) from rfl,
        hstatus, hall]
      decide
    unfold FulfillOrderView_update
    simp [h, hretry]
  · intro hall
    have hretry : can_retry_fulfillment (fulfill_order cap o).1 = true := by
      rw [show can_retry_fulfillment (fulfill_order cap o).1
          = ((fulfill_order cap o).1.status == OrderStatus.FULFILLMENT_ERROR) from rfl,
        hstatus, hall]
      decide
    unfold FulfillOrderView_update
    simp [h, hretry]

/-- Witness for C8 (amended): a retry that fulfills the failing line returns
the updated order. -/
theorem C8_witness :
    can_retry_fulfillment demo_error_order = true ∧
    (fulfill_order demo_cap demo_error_order).1.lines.all
      (fun l => l.status == LineStatus.COMPLETE) = true ∧
    FulfillOrderView_update demo_cap demo_error_order
      = FulfillResponse.ok (fulfill_order demo_cap demo_error_order).1 :=
  ⟨by decide, by decide,
    (C8_amended_update_outcomes demo_cap demo_error_order (by decide)).1 (by decide)⟩

/-- Witness for C9 at a concrete failed notification. -/
theorem C9_witness :
    (ProcessorResult.mk false "OSCR-100001").success = false ∧
    cybersource_notification_post (fun _ => FulfillmentOutcome.Complete)
      (ProcessorResult.mk false "OSCR-100001") demo_system_state
      = (HttpOutcome.ok, demo_system_state) :=
  ⟨rfl, C9_failed_notification_dropped (fun _ => FulfillmentOutcome.Complete)
    (ProcessorResult.mk false "OSCR-100001") demo_system_state rfl⟩

end ECommerce
